import Mathlib

/-!
Verification of the RuleGuardX firewall-policy analysis engine
(`src/engine/analyzer.ts`) against its natural-language specification.

The TypeScript engine is shallowly embedded below.  JavaScript strings are
Lean `String`s manipulated through their `List Char` representation
(`String.data` / `String.mk`), JavaScript numbers that hold port numbers or
CIDR prefixes are `Int` (every value the engine computes with is an integer;
the single fractional weight `0.5` used by the exposure classifier is
modelled by doubling, see `exposureFindings`), and `parseInt(s, 10)` is
modelled by `parseIntJS`, returning `none` for `NaN`.  JavaScript `\s` is
modelled by `Char.isWhitespace`; the inputs the engine receives are ordinary
ASCII configuration text, for which the two coincide.
-/

namespace RuleGuardX

/-! ## Data model (src/types.ts)

Only the fields the analysis engine reads are carried; `service`,
`direction`, `zone`, `description` and `originalRow` are never inspected by
`analyzeRules` and are omitted from the record. -/

/-- `type Protocol = 'TCP' | 'UDP' | 'ICMP' | 'ANY' | 'OTHER'` -/
inductive Protocol
  | TCP | UDP | ICMP | ANY | OTHER
deriving DecidableEq, Repr

/-- `type Action = 'ALLOW' | 'DENY' | 'OTHER'` -/
inductive Action
  | ALLOW | DENY | OTHER
deriving DecidableEq, Repr

/-- `type Severity = 'CRITICAL' | 'HIGH' | 'MEDIUM' | 'LOW' | 'INFORMATIONAL'` -/
inductive Severity
  | CRITICAL | HIGH | MEDIUM | LOW | INFORMATIONAL
deriving DecidableEq, Repr

/-- The `category` union of `AnalysisFinding` in src/types.ts. -/
inductive Category
  | InsecurePort | ExcessiveExposure | SubnetScope | ProtocolRisk
  | PolicyHygiene | CorrelationError
deriving DecidableEq, Repr

/-- `interface InsecurePortSetting` (src/types.ts). -/
structure InsecurePortSetting where
  port : Int
  label : String
  criticality : Severity
  whyInsecure : String
  enabled : Bool
deriving DecidableEq, Repr

/-- `interface FirewallRule` (src/types.ts), restricted to the fields the
engine reads. -/
structure FirewallRule where
  id : String
  name : String
  source : String
  destination : String
  sourcePort : String
  destinationPort : String
  protocol : Protocol
  action : Action
  enabled : Bool
deriving DecidableEq, Repr

/-- `interface AnalysisFinding` (src/types.ts). -/
structure AnalysisFinding where
  ruleId : String
  ruleName : String
  category : Category
  score : Nat
  severity : Severity
  explanation : String
  recommendation : String
deriving DecidableEq, Repr

/-- The `summary` record of `interface AnalysisResults` (src/types.ts). -/
structure Summary where
  totalRules : Nat
  enabledRules : Nat
  criticalFindings : Nat
  highFindings : Nat
  mediumFindings : Nat
  lowFindings : Nat
  averageRiskScore : Nat
deriving DecidableEq, Repr

/-- `interface AnalysisResults` (src/types.ts). -/
structure AnalysisResults where
  rules : List FirewallRule
  findings : List AnalysisFinding
  hygiene : List AnalysisFinding
  summary : Summary
deriving DecidableEq, Repr

/-! ## JavaScript string and number primitives -/

/-- `String.prototype.toLowerCase()` on the ASCII planes the engine sees. -/
def jsToLower (s : String) : String := String.mk (s.data.map Char.toLower)

/-- `String.prototype.trim()`: strip leading and trailing whitespace. -/
def jsTrim (s : String) : String :=
  String.mk (((s.data.dropWhile Char.isWhitespace).reverse.dropWhile
    Char.isWhitespace).reverse)

/-- The maximal run of leading decimal digits of `cs`, as a number. -/
def digitsToNat (cs : List Char) : Nat :=
  cs.foldl (fun a c => 10 * a + (c.toNat - 48)) 0

/-- `parseInt(s, 10)`: skip leading whitespace, read an optional sign and a
maximal nonempty run of decimal digits (trailing garbage ignored); `none`
models `NaN`. -/
def parseIntJS (s : String) : Option Int :=
  let cs := s.data.dropWhile Char.isWhitespace
  let readDigits : List Char → Option Nat := fun l =>
    let ds := l.takeWhile Char.isDigit
    if ds.isEmpty then none else some (digitsToNat ds)
  match cs with
  | '-' :: rest => (readDigits rest).map (fun n => -(n : Int))
  | '+' :: rest => (readDigits rest).map (fun n => (n : Int))
  | _ => (readDigits cs).map (fun n => (n : Int))

/-- `s.split(sep)` for a single-character separator `sep` (JavaScript
string-separator semantics: the list of pieces between occurrences of `sep`,
empty pieces kept). -/
def splitOnChar (sep : Char) : List Char → List (List Char)
  | [] => [[]]
  | x :: xs =>
    let r := splitOnChar sep xs
    if x = sep then [] :: r
    else
      match r with
      | h :: t => (x :: h) :: t
      | [] => [[x]]

/-- A character matched by the separator class `[,\s]` of
`split(/[,\s]+/)`. -/
def isPortSep (c : Char) : Bool := c = ',' || c.isWhitespace

/-- `s.split(/[,\s]+/)`: split on maximal runs of commas and whitespace.  A
run of separators counts as one separator, so only the first and last piece
can be empty. -/
def splitSepRuns : List Char → List String
  | [] => [""]
  | c :: rest =>
    let r := splitSepRuns rest
    if isPortSep c then
      match rest with
      | c2 :: _ => if isPortSep c2 then r else "" :: r
      | [] => "" :: r
    else
      match r with
      | h :: t => String.mk (c :: h.data) :: t
      | [] => [String.mk [c]]

/-! ## Parsers (src/engine/analyzer.ts, `getCidrSize` and `parsePorts`) -/

/-- The normalisation `s.trim().toLowerCase()` both parsers open with
(their local `clean`). -/
def cleanToken (s : String) : String := jsToLower (jsTrim s)

/-- `getCidrSize` (analyzer.ts lines 55-64): trimmed, lower-cased wildcard
tokens map to 0; a token containing `/` maps to `parseInt` of the text after
the first `/`, with fallback 32 when that is `NaN`; a bare address maps
to 32. -/
def getCidrSize (addr : String) : Int :=
  let clean := cleanToken addr
  if clean = "any" ∨ clean = "all" ∨ clean = "0.0.0.0/0" ∨ clean = "*" then 0
  else if clean.data.contains '/' then
    let parts := splitOnChar '/' clean.data
    match parseIntJS (String.mk (parts.getD 1 [])) with
    | some cidr => cidr
    | none => 32
  else 32

/-- The wildcard port sentinel pushed by `parsePorts` (`-1` in the code). -/
def wildcardPort : Int := -1

/-- The ascending range `[start, start+1, ..., end]` pushed by the
`for (let i = start; i <= end; i++)` loop of `parsePorts`; empty when
`start > end`. -/
def rangeInts (start stop : Int) : List Int :=
  (List.range (stop + 1 - start).toNat).map (fun i : Nat => start + (i : Int))

/-- One token of `parsePorts` (the body of the `parts.forEach`): a token
containing `-` is split at `-` and both sides are `parseInt`ed; on success
the inclusive range is produced and on failure of either side the token is
silently dropped.  Any other token is `parseInt`ed and dropped on failure. -/
def tokenPorts (p : String) : List Int :=
  if p.data.contains '-' then
    let sides := (splitOnChar '-' p.data).map
      (fun x => parseIntJS (jsTrim (String.mk x)))
    match sides.getD 0 none, sides.getD 1 none with
    | some start, some stop => rangeInts start stop
    | _, _ => []
  else
    match parseIntJS p with
    | some parsed => [parsed]
    | none => []

/-- `parsePorts` (analyzer.ts lines 66-87): empty text gives no ports; the
whole trimmed, lower-cased wildcard tokens give the single sentinel `[-1]`;
otherwise the text is split on runs of commas/whitespace and each token is
expanded by `tokenPorts`. -/
def parsePorts (portStr : String) : List Int :=
  if portStr = "" then []
  else
    let clean := cleanToken portStr
    if clean = "any" ∨ clean = "all" ∨ clean = "*" ∨ clean = "0-65535"
    then [wildcardPort]
    else (splitSepRuns clean.data).flatMap tokenPorts

/-! ## Knowledge base (analyzer.ts, `SECURITY_KNOWLEDGE_BASE`) -/

namespace SECURITY_KNOWLEDGE_BASE

def ANY_ANY_explanation : String :=
  "Critical security control failure. Allowing 'ANY' source, destination, and service creates a 'Transparent Firewall' state. This violates NIST SP 800-53 AC-4 (Information Flow Enforcement) and is the primary vector for MITRE ATT&CK T1133 (External Remote Services). It provides zero resistance to automated reconnaissance and lateral movement."

def ANY_ANY_recommendation : String :=
  "Immediate Remediation Required: Deconstruct the rule into specific micro-segments. Implement explicit 'Allow' lists (CIS Control 4.4) for known-good IP ranges and services only."

def ANY_SOURCE_explanation : String :=
  "Unrestricted Ingress Exposure. Source 'ANY' implies the rule is reachable from any point in the routed network (often the entire internet). According to SANS/CWE-284, improper access control leads to unauthorized access. This exposure is mapped to MITRE T1595 (Active Scanning) as it provides a target for global scanning botnets."

def ANY_SOURCE_recommendation : String :=
  "Restrict the source to specific authorized CIDR blocks or Geofenced IP ranges. Implement MFA-backed VPN for remote access (NIST AC-17)."

def ANY_DESTINATION_explanation : String :=
  "Blast Radius Escalation. Destination 'ANY' permits traffic to potentially traverse into internal management subnets, sensitive database zones, or domain controllers. This bypasses the principle of 'Network Segmentation' (NIST SP 800-125B) and facilitates MITRE T1021 (Remote Services) lateral movement paths."

def ANY_DESTINATION_recommendation : String :=
  "Narrow the destination to the specific IP address or host group required. Audit destination zones to ensure traffic doesn't bridge high-trust and low-trust boundaries."

def LARGE_SUBNET_explanation (size : Int) : String :=
  "Excessive Blast Radius (/" ++ toString size ++ "). A network segment this large (/16 - /22) typically contains hundreds or thousands of hosts. In an enterprise environment, this broad trust relationship facilitates MITRE T1046 (Network Service Discovery) and massive lateral movement (T1021). Large subnets violate the Zero Trust Architecture (ZTA) principle defined in NIST SP 800-207."

def LARGE_SUBNET_recommendation : String :=
  "Segment the network into smaller VLANs/Subnets (typically /24 or smaller). Use host-based firewalling or micro-segmentation to limit peer-to-peer communication within the subnet."

/-- The `PORT_SPECIFIC` record, as a partial map from port numbers to their
knowledge-base text (`undefined` for absent keys becomes `none`). -/
def PORT_SPECIFIC (p : Int) : Option String :=
  if p = 21 then some "FTP: Legacy cleartext protocol. Susceptible to MITRE T1557.002 (Adversary-in-the-Middle) and CWE-319. Credentials and data are transmitted in plaintext, violating NIST SP 800-52 requirements for protecting sensitive information."
  else if p = 23 then some "Telnet: Highly insecure administrative protocol. Replaced by SSH (NIST SP 800-53 IA-2). Plaintext transmission of management credentials allows easy interception via MITRE T1040 (Network Sniffing)."
  else if p = 445 then some "SMB/CIFS: Extremely high risk for lateral movement. Associated with MITRE T1021.002 and historic ransomware strains like WannaCry (EternalBlue). CIS Control 12 recommends blocking SMB at network boundaries to prevent NTLM relay attacks and remote file execution."
  else if p = 3389 then some "RDP: Primary entry point for ransomware. Mapped to MITRE T1133. RDP exposure without NLA or MFA is a critical finding under CIS Control 4. Default configuration allows for brute-force attacks (T1110) and potential exploit of BlueKeep-style vulnerabilities."
  else if p = 22 then some "SSH: While secure, direct internet exposure is discouraged by CIS Benchmark 1.1. Brute-force (T1110) is common. Should be restricted to Jump Hosts (Bastions) only."
  else if p = 80 then some "HTTP: Unencrypted web traffic (CWE-319). Allows for session hijacking and credential theft (T1557). OWASP recommends enforcing HTTPS (TLS 1.2+) globally."
  else if p = 3306 then some "MySQL: Database exposure. Facilitates MITRE T1190 (Exploit Public-Facing Application) and T1534 (Internal Spearphishing for DB access). Direct network access to databases should never cross security zones."
  else if p = 1433 then some "MSSQL: High-value target for data exfiltration (MITRE T1020). Risk of SQL injection escalation if the listener is exposed to untrusted segments."
  else none

def HYGIENE_SHADOWING_explanation : String :=
  "Rule Shadowing (NIST SP 800-41): A critical redundancy issue where a rule is entirely eclipsed by a preceding rule with identical or broader criteria. Shadowed rules are technically unreachable. Performance Impact: Every redundant rule increases the policy lookup latency (linear O(n) search), consuming CPU cycles and memory. Maintenance Impact: Shadowing creates 'Configuration Sprawl' and 'Technical Debt', making it difficult for auditors to determine the intended security posture and increasing the risk of accidental misconfiguration during policy updates."

def HYGIENE_SHADOWING_recommendation : String :=
  "Policy De-duplication: Remove the shadowed rule. Consolidate overlapping rules into single entries using Object Groups (IP Sets/Service Groups) to maintain a lean, high-performance policy base (CIS Control 12)."

def HYGIENE_CONFLICT_explanation : String :=
  "Policy Logic Conflict (Race Condition): Two rules cover the same traffic flow but mandate different actions (Permit vs Deny). While most firewalls use a 'First-Match' algorithm, conflicting rules indicate a lack of deterministic policy design. This ambiguity leads to 'Security Leakage' where a change in rule order accidentally grants unauthorized access. It violates the principle of 'Explicit Intent' and complicates incident response, forensic analysis, and compliance reporting."

def HYGIENE_CONFLICT_recommendation : String :=
  "Standardize Policy Order: Place 'Deny' rules for specific subnets above 'Allow' rules for broader segments (Ordered Filtering). Use an explicit 'Deny All' (Default Deny) at the end of each zone pair to enforce strict boundary control."

def HYGIENE_LATENT_RISK_explanation : String :=
  "Latent Exposure (Dormant High-Risk Rules): This rule is disabled but contains broad 'ANY' criteria or exposes administrative services. According to CIS Control 12, inactive rules should be purged periodically. Disabled rules are often 'temporarily' re-enabled during troubleshooting and forgotten, or leveraged by an adversary who has gained administrative control (MITRE T1562.001 - Impair Defenses) to quickly open backdoors without creating new rule logs."

def HYGIENE_LATENT_RISK_recommendation : String :=
  "Purge Policy Debt: If a rule has been disabled for more than 90 days (NIST best practice), it should be permanently deleted. Maintain a 'Clean Configuration' to minimize the attack surface available for manipulation."

end SECURITY_KNOWLEDGE_BASE

/-! ## The analysis engine (analyzer.ts, `analyzeRules`) -/

/-- The `activeInsecurePorts` map (analyzer.ts lines 93-94): every enabled
policy entry is inserted keyed by its port, later entries overwriting
earlier ones, so lookup returns the last enabled entry with the given
port. -/
def activeInsecurePorts (portSettings : List InsecurePortSetting) (p : Int) :
    Option InsecurePortSetting :=
  ((portSettings.filter (fun s => s.enabled)).reverse).find? (fun s => s.port = p)

/-- Step 1, "ANY Rule Logic" (analyzer.ts lines 103-147).  The weighted
dimension count `anyDimensions` (1 each for any-source, any-destination and
any-port, 0.5 for any-protocol) is modelled doubled as the integer
`twiceAnyDimensions`, so the test `anyDimensions >= 3` becomes
`6 ≤ twiceAnyDimensions`; every weight is a multiple of one half, so the
doubling is exact. -/
def exposureFindings (rule : FirewallRule) : List AnalysisFinding :=
  let ports := parsePorts rule.destinationPort
  let srcCidr := getCidrSize rule.source
  let dstCidr := getCidrSize rule.destination
  let hasAnyPort := ports.contains wildcardPort
  if rule.action = Action.ALLOW ∧
      (srcCidr = 0 ∨ dstCidr = 0 ∨ rule.protocol = Protocol.ANY ∨ hasAnyPort = true) then
    let twiceAnyDimensions : Nat :=
      2 * ((if srcCidr = 0 then 1 else 0) + (if dstCidr = 0 then 1 else 0) +
        (if hasAnyPort then 1 else 0)) +
      (if rule.protocol = Protocol.ANY then 1 else 0)
    if 6 ≤ twiceAnyDimensions then
      [⟨rule.id, rule.name, .ExcessiveExposure, 100, .CRITICAL,
        SECURITY_KNOWLEDGE_BASE.ANY_ANY_explanation,
        SECURITY_KNOWLEDGE_BASE.ANY_ANY_recommendation⟩]
    else if srcCidr = 0 then
      [⟨rule.id, rule.name, .ExcessiveExposure, 85, .HIGH,
        SECURITY_KNOWLEDGE_BASE.ANY_SOURCE_explanation,
        SECURITY_KNOWLEDGE_BASE.ANY_SOURCE_recommendation⟩]
    else if dstCidr = 0 then
      [⟨rule.id, rule.name, .ExcessiveExposure, 80, .HIGH,
        SECURITY_KNOWLEDGE_BASE.ANY_DESTINATION_explanation,
        SECURITY_KNOWLEDGE_BASE.ANY_DESTINATION_recommendation⟩]
    else
      [⟨rule.id, rule.name, .ExcessiveExposure, 60, .MEDIUM,
        "Broad protocol or port access ('ANY') detected. This increases the attack surface for specialized payloads and facilitates T1046 (Network Service Discovery).",
        "Restrict the rule to only the required ports and protocols (CIS Control 4.4)."⟩]
  else []

/-- Step 2, "Subnet Scope Analysis" (analyzer.ts lines 149-174). -/
def subnetScopeFindings (rule : FirewallRule) : List AnalysisFinding :=
  let srcCidr := getCidrSize rule.source
  if rule.action = Action.ALLOW then
    if srcCidr ≤ 16 ∧ srcCidr > 0 then
      [⟨rule.id, rule.name, .SubnetScope, 80,
        if srcCidr ≤ 8 then .CRITICAL else .HIGH,
        SECURITY_KNOWLEDGE_BASE.LARGE_SUBNET_explanation srcCidr,
        SECURITY_KNOWLEDGE_BASE.LARGE_SUBNET_recommendation⟩]
    else if srcCidr ≥ 17 ∧ srcCidr ≤ 22 then
      [⟨rule.id, rule.name, .SubnetScope, 60, .HIGH,
        SECURITY_KNOWLEDGE_BASE.LARGE_SUBNET_explanation srcCidr,
        SECURITY_KNOWLEDGE_BASE.LARGE_SUBNET_recommendation⟩]
    else []
  else []

/-- Step 3, "Insecure Ports" (analyzer.ts lines 176-195). -/
def insecurePortFindings (portSettings : List InsecurePortSetting)
    (rule : FirewallRule) : List AnalysisFinding :=
  if rule.action = Action.ALLOW then
    (parsePorts rule.destinationPort).flatMap (fun p =>
      if p = wildcardPort then []
      else
        match activeInsecurePorts portSettings p with
        | some setting =>
          let detailedRisk := (SECURITY_KNOWLEDGE_BASE.PORT_SPECIFIC p).getD
            ("Protocol/Port " ++ toString p ++ " is flagged as insecure or high-risk for enterprise environments. Access to this port increases the threat profile of the host and facilitates potential MITRE ATT&CK techniques.")
          [⟨rule.id, rule.name, .InsecurePort,
            (match setting.criticality with
              | .CRITICAL => 100
              | .HIGH => 90
              | _ => 60),
            setting.criticality,
            "Service Identity: " ++ setting.label ++ " (Port " ++ toString p ++
              "). " ++ detailedRisk ++ " Reference: " ++ setting.whyInsecure ++ ".",
            "Transition to secure alternatives (e.g., replace FTP with SFTP, Telnet with SSH). If the service is required, restrict access to a specific 'Trusted Admin' subnet and implement deep packet inspection (DPI)."⟩]
        | none => [])
  else []

/-- The scoring findings (`findings.push` sites) produced while visiting one
rule, in push order: excessive exposure, then subnet scope, then insecure
ports. -/
def ruleScoringFindings (portSettings : List InsecurePortSetting)
    (rule : FirewallRule) : List AnalysisFinding :=
  exposureFindings rule ++ subnetScopeFindings rule ++
    insecurePortFindings portSettings rule

/-- The predicate of the `shadowedBy` scan (analyzer.ts lines 198-205). -/
def shadowPred (rule prev : FirewallRule) : Bool :=
  decide (prev.enabled = true ∧ prev.action = rule.action ∧
    (prev.source = rule.source ∨ jsToLower prev.source = "any") ∧
    (prev.destination = rule.destination ∨ jsToLower prev.destination = "any") ∧
    (prev.protocol = rule.protocol ∨ prev.protocol = Protocol.ANY) ∧
    (prev.destinationPort = rule.destinationPort ∨
      jsToLower prev.destinationPort = "any"))

/-- The predicate of the `conflicting` scan (analyzer.ts lines 219-225). -/
def conflictPred (rule prev : FirewallRule) : Bool :=
  decide (prev.enabled = true ∧ prev.action ≠ rule.action ∧
    prev.source = rule.source ∧ prev.destination = rule.destination ∧
    prev.destinationPort = rule.destinationPort)

/-- The shadowing explanation spliced with the eclipsing rule's id. -/
def shadowExplanation (eclipsingId : String) : String :=
  SECURITY_KNOWLEDGE_BASE.HYGIENE_SHADOWING_explanation ++
    " This specific rule is eclipsed by Rule ID: " ++ eclipsingId ++ "."

/-- The conflict explanation spliced with the conflicting rule's id. -/
def conflictExplanation (conflictingId : String) : String :=
  SECURITY_KNOWLEDGE_BASE.HYGIENE_CONFLICT_explanation ++
    " A direct action conflict exists with Rule ID: " ++ conflictingId ++ "."

/-- The shadowing push site (analyzer.ts lines 198-217): the finding pushed
for the rule at position `index` when an earlier enabled equal-or-broader
rule with the same action exists.  `rules.take index` models
`rules.slice(0, index)`. -/
def shadowHygieneFindings (rules : List FirewallRule) (index : Nat)
    (rule : FirewallRule) : List AnalysisFinding :=
  match (rules.take index).find? (shadowPred rule) with
  | some prev =>
    if rule.enabled then
      [⟨rule.id, rule.name, .PolicyHygiene, 20, .INFORMATIONAL,
        shadowExplanation prev.id,
        SECURITY_KNOWLEDGE_BASE.HYGIENE_SHADOWING_recommendation⟩]
    else []
  | none => []

/-- The conflict push site (analyzer.ts lines 219-237). -/
def conflictHygieneFindings (rules : List FirewallRule) (index : Nat)
    (rule : FirewallRule) : List AnalysisFinding :=
  match (rules.take index).find? (conflictPred rule) with
  | some prev =>
    if rule.enabled then
      [⟨rule.id, rule.name, .CorrelationError, 50, .MEDIUM,
        conflictExplanation prev.id,
        SECURITY_KNOWLEDGE_BASE.HYGIENE_CONFLICT_recommendation⟩]
    else []
  | none => []

/-- The latent-risk push site (analyzer.ts lines 239-251). -/
def latentHygieneFindings (rule : FirewallRule) : List AnalysisFinding :=
  if rule.enabled = false ∧ rule.action = Action.ALLOW ∧
      (getCidrSize rule.source = 0 ∨
        (parsePorts rule.destinationPort).contains wildcardPort = true) then
    [⟨rule.id, rule.name, .PolicyHygiene, 40, .LOW,
      SECURITY_KNOWLEDGE_BASE.HYGIENE_LATENT_RISK_explanation,
      SECURITY_KNOWLEDGE_BASE.HYGIENE_LATENT_RISK_recommendation⟩]
  else []

/-- Step 4, "Policy Hygiene & Correlation" (analyzer.ts lines 197-251): the
hygiene findings pushed while visiting the rule at position `index`, in push
order: shadowing, then conflict, then latent risk. -/
def ruleHygieneFindings (rules : List FirewallRule) (index : Nat)
    (rule : FirewallRule) : List AnalysisFinding :=
  shadowHygieneFindings rules index rule ++
    conflictHygieneFindings rules index rule ++ latentHygieneFindings rule

/-- `Math.round(total / count)` for natural `total` and positive natural
`count`: halves round up, as `Math.round` does for nonnegative values. -/
def jsRound (total count : Nat) : Nat := (2 * total + count) / (2 * count)

/-- `analyzeRules` (analyzer.ts lines 89-267). -/
def analyzeRules (rules : List FirewallRule)
    (portSettings : List InsecurePortSetting) : AnalysisResults :=
  let findings := rules.flatMap (fun rule => ruleScoringFindings portSettings rule)
  let hygiene := rules.enum.flatMap (fun p => ruleHygieneFindings rules p.1 p.2)
  { rules := rules
    findings := findings
    hygiene := hygiene
    summary := {
      totalRules := rules.length
      enabledRules := (rules.filter (fun r => r.enabled)).length
      criticalFindings := (findings.filter (fun f => f.severity = Severity.CRITICAL)).length
      highFindings := (findings.filter (fun f => f.severity = Severity.HIGH)).length
      mediumFindings := (findings.filter (fun f => f.severity = Severity.MEDIUM)).length
      lowFindings := (findings.filter (fun f => f.severity = Severity.LOW)).length
      averageRiskScore :=
        if 0 < findings.length then
          jsRound ((findings.map (fun f => f.score)).sum) findings.length
        else 0 } }

example : parsePorts "22" = [22] := by decide
example : parsePorts "80,443" = [80, 443] := by decide
example : parsePorts "1000-1002" = [1000, 1001, 1002] := by decide
example : parsePorts "any" = [-1] := by decide
example : parsePorts "abc" = [] := by decide
example : getCidrSize "10.0.0.0/8" = 8 := by decide
example : getCidrSize " Any " = 0 := by decide
example : getCidrSize "10.0.0.7" = 32 := by decide
example : getCidrSize "10.0.0.0/xx" = 32 := by decide
example : getCidrSize "1.2.3.4/40" = 40 := by decide

/-! ## General lemmas about the engine -/

theorem analyzeRules_findings (rules : List FirewallRule)
    (ps : List InsecurePortSetting) :
    (analyzeRules rules ps).findings =
      rules.flatMap (fun r => ruleScoringFindings ps r) := rfl

theorem analyzeRules_hygiene (rules : List FirewallRule)
    (ps : List InsecurePortSetting) :
    (analyzeRules rules ps).hygiene =
      rules.enum.flatMap (fun p => ruleHygieneFindings rules p.1 p.2) := rfl

theorem filter_flatMap_eq {α β : Type} (l : List α) (F : α → List β)
    (p : β → Bool) :
    (l.flatMap F).filter p = l.flatMap (fun a => (F a).filter p) := by
  induction l with
  | nil => rfl
  | cons x t ih => simp only [List.flatMap_cons, List.filter_append, ih]

theorem map_flatMap_eq {α β γ : Type} (l : List α) (F : α → List β)
    (g : β → γ) :
    (l.flatMap F).map g = l.flatMap (fun a => (F a).map g) := by
  induction l with
  | nil => rfl
  | cons x t ih => simp only [List.flatMap_cons, List.map_append, ih]

theorem flatMap_eq_nil_of_forall {α β : Type} (l : List α) (F : α → List β)
    (h : ∀ a, F a = []) : l.flatMap F = [] := by
  induction l with
  | nil => rfl
  | cons x t ih => simp only [List.flatMap_cons, h, ih, List.nil_append]

/-- Every finding pushed by the exposure step carries category
`Excessive Exposure`, so filtering the step's output by that category is the
identity. -/
theorem exposure_filter_EE (r : FirewallRule) :
    (exposureFindings r).filter
      (fun f => f.category = Category.ExcessiveExposure) = exposureFindings r := by
  simp only [exposureFindings]
  split_ifs <;> rfl

theorem subnet_filter_EE (r : FirewallRule) :
    (subnetScopeFindings r).filter
      (fun f => f.category = Category.ExcessiveExposure) = [] := by
  simp only [subnetScopeFindings]
  split_ifs <;> rfl

theorem insecure_filter_EE (ps : List InsecurePortSetting) (r : FirewallRule) :
    (insecurePortFindings ps r).filter
      (fun f => f.category = Category.ExcessiveExposure) = [] := by
  simp only [insecurePortFindings]
  split_ifs with h
  · rw [filter_flatMap_eq]
    refine flatMap_eq_nil_of_forall _ _ (fun p => ?_)
    split_ifs with hp
    · rfl
    · cases activeInsecurePorts ps p <;> rfl
  · rfl

/-- The doubled-weight comparison the code makes is the weighted count of
the specification: `anyDimensions >= 3` with weights 1, 1, 1, 0.5. -/
theorem weight_equiv (a b c d : Prop) [Decidable a] [Decidable b]
    [Decidable c] [Decidable d] :
    ((3:ℚ) ≤ (if a then (1:ℚ) else 0) + (if b then (1:ℚ) else 0) +
      (if c then (1:ℚ) else 0) + (if d then (1/2:ℚ) else 0)) ↔
    (6 ≤ 2 * ((if a then (1:Nat) else 0) + (if b then (1:Nat) else 0) +
      (if c then (1:Nat) else 0)) + (if d then (1:Nat) else 0)) := by
  by_cases ha : a <;> by_cases hb : b <;> by_cases hc : c <;> by_cases hd : d <;>
    simp [ha, hb, hc, hd] <;> norm_num

/-- The observable face of the exposure step: its finding list projected to
(rule id, severity, score), characterised in the specification's terms. -/
theorem exposure_map_obs (r : FirewallRule) :
    (exposureFindings r).map (fun f => (f.ruleId, f.severity, f.score)) =
    (if r.action = Action.ALLOW ∧
        (getCidrSize r.source = 0 ∨ getCidrSize r.destination = 0 ∨
          r.protocol = Protocol.ANY ∨
          (parsePorts r.destinationPort).contains wildcardPort = true) then
      if (3:ℚ) ≤ (if getCidrSize r.source = 0 then (1:ℚ) else 0) +
          (if getCidrSize r.destination = 0 then (1:ℚ) else 0) +
          (if (parsePorts r.destinationPort).contains wildcardPort = true
            then (1:ℚ) else 0) +
          (if r.protocol = Protocol.ANY then (1/2:ℚ) else 0) then
        [(r.id, Severity.CRITICAL, 100)]
      else if getCidrSize r.source = 0 then [(r.id, Severity.HIGH, 85)]
      else if getCidrSize r.destination = 0 then [(r.id, Severity.HIGH, 80)]
      else [(r.id, Severity.MEDIUM, 60)]
    else []) := by
  simp only [exposureFindings]
  by_cases hA : r.action = Action.ALLOW <;>
    by_cases h1 : getCidrSize r.source = 0 <;>
    by_cases h2 : getCidrSize r.destination = 0 <;>
    by_cases h3 : r.protocol = Protocol.ANY <;>
    by_cases h4 : wildcardPort ∈ parsePorts r.destinationPort <;>
    simp [hA, h1, h2, h3, h4] <;> norm_num

theorem exposure_filter_SS (r : FirewallRule) :
    (exposureFindings r).filter
      (fun f => f.category = Category.SubnetScope) = [] := by
  simp only [exposureFindings]
  split_ifs <;> rfl

theorem subnet_filter_SS (r : FirewallRule) :
    (subnetScopeFindings r).filter
      (fun f => f.category = Category.SubnetScope) = subnetScopeFindings r := by
  simp only [subnetScopeFindings]
  split_ifs <;> rfl

theorem insecure_filter_SS (ps : List InsecurePortSetting) (r : FirewallRule) :
    (insecurePortFindings ps r).filter
      (fun f => f.category = Category.SubnetScope) = [] := by
  simp only [insecurePortFindings]
  split_ifs with h
  · rw [filter_flatMap_eq]
    refine flatMap_eq_nil_of_forall _ _ (fun p => ?_)
    split_ifs with hp
    · rfl
    · cases activeInsecurePorts ps p <;> rfl
  · rfl

/-- The observable face of the subnet-scope step, characterised with the
specification's tier bounds. -/
theorem subnet_map_obs (r : FirewallRule) :
    (subnetScopeFindings r).map (fun f => (f.ruleId, f.severity, f.score)) =
    (if r.action = Action.ALLOW ∧ 0 < getCidrSize r.source ∧
        getCidrSize r.source ≤ 22 then
      [(r.id,
        (if getCidrSize r.source ≤ 8 then Severity.CRITICAL else Severity.HIGH),
        (if getCidrSize r.source ≤ 16 then 80 else 60))]
    else []) := by
  simp only [subnetScopeFindings]
  split_ifs <;>
    first
      | rfl
      | (exfalso; omega)
      | (exfalso; simp_all <;> omega)

theorem exposure_filter_IP (r : FirewallRule) :
    (exposureFindings r).filter
      (fun f => f.category = Category.InsecurePort) = [] := by
  simp only [exposureFindings]
  split_ifs <;> rfl

theorem subnet_filter_IP (r : FirewallRule) :
    (subnetScopeFindings r).filter
      (fun f => f.category = Category.InsecurePort) = [] := by
  simp only [subnetScopeFindings]
  split_ifs <;> rfl

theorem insecure_filter_IP (ps : List InsecurePortSetting) (r : FirewallRule) :
    (insecurePortFindings ps r).filter
      (fun f => f.category = Category.InsecurePort) = insecurePortFindings ps r := by
  simp only [insecurePortFindings]
  split_ifs with h
  · rw [filter_flatMap_eq]
    refine congrArg _ (funext fun p => ?_)
    split_ifs with hp
    · rfl
    · cases activeInsecurePorts ps p <;> rfl
  · rfl

/-- The observable face of the insecure-port step. -/
theorem insecure_map_obs (ps : List InsecurePortSetting) (r : FirewallRule) :
    (insecurePortFindings ps r).map (fun f => (f.ruleId, f.severity, f.score)) =
    (if r.action = Action.ALLOW then
      (parsePorts r.destinationPort).flatMap (fun p =>
        if p = wildcardPort then []
        else
          match activeInsecurePorts ps p with
          | some entry =>
            [(r.id, entry.criticality,
              (match entry.criticality with
                | Severity.CRITICAL => 100
                | Severity.HIGH => 90
                | _ => 60))]
          | none => [])
    else []) := by
  simp only [insecurePortFindings]
  split_ifs with hA
  · rw [map_flatMap_eq]
    refine congrArg _ (funext fun p => ?_)
    split_ifs with hp
    · rfl
    · cases activeInsecurePorts ps p <;> rfl
  · rfl

theorem flatMap_map_eq {α β γ : Type} (l : List α) (f : α → β)
    (F : β → List γ) :
    (l.map f).flatMap F = l.flatMap (fun a => F (f a)) := by
  induction l with
  | nil => rfl
  | cons x t ih => simp only [List.map_cons, List.flatMap_cons, ih]

/-- A flatMap over an enumerated list whose body ignores the index is a
flatMap over the list itself. -/
theorem enum_flatMap_snd {α β : Type} (l : List α) (G : α → List β) :
    l.enum.flatMap (fun q => G q.2) = l.flatMap G := by
  rw [show l.enum.flatMap (fun q => G q.2) =
      (l.enum.map Prod.snd).flatMap G from (flatMap_map_eq _ _ _).symm,
    List.enum_map_snd]

/-- The Correlation Error face of the hygiene findings pushed at one index:
exactly the conflict scan's result. -/
theorem hygiene_CE_obs (rules : List FirewallRule) (i : Nat)
    (r : FirewallRule) :
    ((ruleHygieneFindings rules i r).filter
      (fun f => f.category = Category.CorrelationError)).map
      (fun f => (f.ruleId, f.severity, f.score, f.explanation)) =
    (if r.enabled then
      match (rules.take i).find? (conflictPred r) with
      | some prev => [(r.id, Severity.MEDIUM, 50, conflictExplanation prev.id)]
      | none => []
    else []) := by
  rw [show ruleHygieneFindings rules i r = shadowHygieneFindings rules i r ++
      conflictHygieneFindings rules i r ++ latentHygieneFindings r from rfl,
    List.filter_append, List.filter_append]
  have hs : (shadowHygieneFindings rules i r).filter
      (fun f => f.category = Category.CorrelationError) = [] := by
    unfold shadowHygieneFindings
    cases (rules.take i).find? (shadowPred r)
    · rfl
    · cases hr : r.enabled <;> rfl
  have hl : (latentHygieneFindings r).filter
      (fun f => f.category = Category.CorrelationError) = [] := by
    unfold latentHygieneFindings
    split_ifs <;> rfl
  rw [hs, hl, List.nil_append, List.append_nil]
  unfold conflictHygieneFindings
  cases hcf : (rules.take i).find? (conflictPred r) <;>
    cases hr : r.enabled <;> rfl

/-- The shadowing face (Policy Hygiene, INFORMATIONAL) of the hygiene
findings pushed at one index: exactly the shadow scan's result. -/
theorem hygiene_shadow_obs (rules : List FirewallRule) (i : Nat)
    (r : FirewallRule) :
    ((ruleHygieneFindings rules i r).filter
      (fun f => f.category = Category.PolicyHygiene ∧
        f.severity = Severity.INFORMATIONAL)).map
      (fun f => (f.ruleId, f.score, f.explanation)) =
    (if r.enabled then
      match (rules.take i).find? (shadowPred r) with
      | some prev => [(r.id, 20, shadowExplanation prev.id)]
      | none => []
    else []) := by
  rw [show ruleHygieneFindings rules i r = shadowHygieneFindings rules i r ++
      conflictHygieneFindings rules i r ++ latentHygieneFindings r from rfl,
    List.filter_append, List.filter_append]
  have hc : (conflictHygieneFindings rules i r).filter
      (fun f => f.category = Category.PolicyHygiene ∧
        f.severity = Severity.INFORMATIONAL) = [] := by
    unfold conflictHygieneFindings
    cases (rules.take i).find? (conflictPred r)
    · rfl
    · cases hr : r.enabled <;> rfl
  have hl : (latentHygieneFindings r).filter
      (fun f => f.category = Category.PolicyHygiene ∧
        f.severity = Severity.INFORMATIONAL) = [] := by
    unfold latentHygieneFindings
    split_ifs <;> rfl
  rw [hc, hl, List.append_nil, List.append_nil]
  unfold shadowHygieneFindings
  cases hsh : (rules.take i).find? (shadowPred r) <;>
    cases hr : r.enabled <;> rfl

/-- The latent-risk face (Policy Hygiene, LOW) of the hygiene findings
pushed at one index: independent of the index and of earlier rules. -/
theorem hygiene_latent_obs (rules : List FirewallRule) (i : Nat)
    (r : FirewallRule) :
    ((ruleHygieneFindings rules i r).filter
      (fun f => f.category = Category.PolicyHygiene ∧
        f.severity = Severity.LOW)).map
      (fun f => (f.ruleId, f.score)) =
    (if r.enabled = false ∧ r.action = Action.ALLOW ∧
        (getCidrSize r.source = 0 ∨
          (parsePorts r.destinationPort).contains wildcardPort = true) then
      [(r.id, 40)]
    else []) := by
  rw [show ruleHygieneFindings rules i r = shadowHygieneFindings rules i r ++
      conflictHygieneFindings rules i r ++ latentHygieneFindings r from rfl,
    List.filter_append, List.filter_append]
  have hs : (shadowHygieneFindings rules i r).filter
      (fun f => f.category = Category.PolicyHygiene ∧
        f.severity = Severity.LOW) = [] := by
    unfold shadowHygieneFindings
    cases (rules.take i).find? (shadowPred r)
    · rfl
    · cases hr : r.enabled <;> rfl
  have hc : (conflictHygieneFindings rules i r).filter
      (fun f => f.category = Category.PolicyHygiene ∧
        f.severity = Severity.LOW) = [] := by
    unfold conflictHygieneFindings
    cases (rules.take i).find? (conflictPred r)
    · rfl
    · cases hr : r.enabled <;> rfl
  rw [hs, hc, List.nil_append, List.nil_append]
  unfold latentHygieneFindings
  split_ifs <;> rfl

/-! ## Concrete fixtures used by witnesses and counterexamples -/

/-- An ALLOW rule from a /8 source to destination `any`, port 443. -/
def ruleSlash8 : FirewallRule :=
  ⟨"R8", "slash eight", "10.0.0.0/8", "any", "", "443", .TCP, .ALLOW, true⟩

/-- An ALLOW rule to destination port 445 with nothing else remarkable. -/
def ruleAllow445 : FirewallRule :=
  ⟨"R445", "smb rule", "10.0.0.1", "10.0.0.2", "", "445", .TCP, .ALLOW, true⟩

/-- The port-445 policy entry of the default catalog, enabled. -/
def smbEnabled : InsecurePortSetting :=
  ⟨445, "SMB", .HIGH, "Ransomware, lateral movement", true⟩

/-- The same port-445 policy entry, disabled. -/
def smbDisabled : InsecurePortSetting :=
  ⟨445, "SMB", .HIGH, "Ransomware, lateral movement", false⟩

/-- An enabled ALLOW rule over textually identical fields as
`ruleConflictB` but opposite action. -/
def ruleConflictA : FirewallRule :=
  ⟨"A", "conflict allow", "10.1.1.0/24", "10.2.2.2", "", "443", .TCP, .ALLOW,
    true⟩

/-- The DENY twin of `ruleConflictA`. -/
def ruleConflictB : FirewallRule :=
  ⟨"B", "conflict deny", "10.1.1.0/24", "10.2.2.2", "", "443", .TCP, .DENY,
    true⟩

/-- `ruleConflictB` with a trailing space in its destination-port text. -/
def ruleConflictBspace : FirewallRule :=
  ⟨"B", "conflict deny", "10.1.1.0/24", "10.2.2.2", "", "443 ", .TCP, .DENY,
    true⟩

/-- The broad rule A of the shadowing order-sensitivity example. -/
def ruleBroadA : FirewallRule :=
  ⟨"A", "broad any", "any", "any", "", "any", .ANY, .ALLOW, true⟩

/-- The narrow rule B of the shadowing order-sensitivity example. -/
def ruleNarrowB : FirewallRule :=
  ⟨"B", "narrow", "10.0.0.0/24", "any", "", "443", .TCP, .ALLOW, true⟩

/-- A disabled ALLOW rule whose destination port text is the wildcard. -/
def ruleDormant : FirewallRule :=
  ⟨"D", "dormant", "10.0.0.1", "10.0.0.2", "", "any", .TCP, .ALLOW, false⟩

/-- `ruleDormant` with `enabled := true`. -/
def ruleDormantOn : FirewallRule :=
  ⟨"D", "dormant", "10.0.0.1", "10.0.0.2", "", "any", .TCP, .ALLOW, true⟩

/-- A disabled ALLOW rule with a specific source and a specific port. -/
def ruleDormantNarrow : FirewallRule :=
  ⟨"DN", "dormant narrow", "10.0.0.1", "10.0.0.2", "", "443", .TCP, .ALLOW,
    false⟩

/-- An any/any/any ALLOW rule, scoring CRITICAL/100. -/
def ruleCrit : FirewallRule :=
  ⟨"S1", "any any any", "any", "any", "", "any", .TCP, .ALLOW, true⟩

/-- An ALLOW rule whose only wildcard is the destination, scoring HIGH/80. -/
def ruleHighDest : FirewallRule :=
  ⟨"S2", "any dest", "10.9.9.9", "any", "", "9999", .TCP, .ALLOW, true⟩

/-- An ALLOW rule whose only wildcard is the protocol, scoring MEDIUM/60. -/
def ruleMedProto : FirewallRule :=
  ⟨"S3", "any proto", "10.9.9.9", "10.9.9.8", "", "9999", .ANY, .ALLOW, true⟩

/-- `Math.round(t / c)` as the code computes it is the mathematical
round-half-up of the rational mean. -/
theorem jsRound_eq_round (t c : Nat) (hc : 0 < c) :
    (jsRound t c : ℤ) = round ((t : ℚ) / (c : ℚ)) := by
  have hc' : (0:ℚ) < (c:ℚ) := by exact_mod_cast hc
  have hq : (t : ℚ) / (c:ℚ) + 1/2 = ((2*t + c : ℕ) : ℚ) / ((2*c : ℕ) : ℚ) := by
    push_cast
    field_simp
    ring
  have h0 : (0:ℚ) ≤ ((2*t + c : ℕ) : ℚ) / ((2*c : ℕ) : ℚ) := by positivity
  have h1 : ((2*t + c) / (2*c) : ℕ) =
      ⌊((2*t + c : ℕ) : ℚ) / ((2*c : ℕ) : ℚ)⌋₊ :=
    (Nat.floor_div_eq_div _ _).symm
  rw [round_eq, hq, jsRound, h1, ← Int.floor_toNat]
  exact Int.toNat_of_nonneg (Int.floor_nonneg.mpr h0)

/-! ## Claim theorems -/

/-- C2 (counterexample): `getCidrSize` does not clamp the parsed prefix to
`[0,32]` — on `"1.2.3.4/40"` it returns 40, outside the claimed range. -/
theorem C2_getCidrSize_counterexample :
    getCidrSize "1.2.3.4/40" = 40 ∧ ¬(getCidrSize "1.2.3.4/40" ≤ 32) := by
  decide

/-- C2 (amended): `getCidrSize` returns 0 for the trimmed, lower-cased
wildcard tokens; for a token containing `/` it returns the integer parsed
(with optional sign) from the substring after the first `/`, unclamped, with
fallback 32 when that substring is unparsable; and 32 for a bare address.
The result lies in `[0,32]` for every input without a `/`; a `/` token can
carry it outside that range. -/
theorem C2_getCidrSize_amended (addr : String) :
    (cleanToken addr = "any" ∨ cleanToken addr = "all" ∨
      cleanToken addr = "0.0.0.0/0" ∨ cleanToken addr = "*" →
      getCidrSize addr = 0) ∧
    (¬(cleanToken addr = "any" ∨ cleanToken addr = "all" ∨
        cleanToken addr = "0.0.0.0/0" ∨ cleanToken addr = "*") →
      (cleanToken addr).data.contains '/' = true →
      getCidrSize addr =
        (parseIntJS
          (String.mk ((splitOnChar '/' (cleanToken addr).data).getD 1 []))).getD 32) ∧
    (¬(cleanToken addr = "any" ∨ cleanToken addr = "all" ∨
        cleanToken addr = "0.0.0.0/0" ∨ cleanToken addr = "*") →
      (cleanToken addr).data.contains '/' = false → getCidrSize addr = 32) ∧
    ((cleanToken addr).data.contains '/' = false →
      0 ≤ getCidrSize addr ∧ getCidrSize addr ≤ 32) := by
  refine ⟨fun hw => ?_, fun hw hs => ?_, fun hw hs => ?_, fun hs => ?_⟩
  · simp only [getCidrSize]
    rw [if_pos hw]
  · simp only [getCidrSize]
    rw [if_neg hw, if_pos hs]
    cases parseIntJS
        (String.mk ((splitOnChar '/' (cleanToken addr).data).getD 1 [])) <;> rfl
  · simp only [getCidrSize]
    rw [if_neg hw, if_neg (by rw [hs]; decide)]
  · simp only [getCidrSize]
    by_cases hw : cleanToken addr = "any" ∨ cleanToken addr = "all" ∨
        cleanToken addr = "0.0.0.0/0" ∨ cleanToken addr = "*"
    · rw [if_pos hw]; omega
    · rw [if_neg hw, if_neg (by rw [hs]; decide)]; omega

/-- C2 (witness): the amended characterisation applied at `"10.0.0.0/24"`. -/
theorem C2_getCidrSize_amended_w : getCidrSize "10.0.0.0/24" = 24 := by
  have h := (C2_getCidrSize_amended "10.0.0.0/24").2.1 (by decide) (by decide)
  rw [h]; decide

/-- C7: `parsePorts` maps empty text to `[]` and the whole trimmed,
lower-cased wildcard tokens to the single sentinel; otherwise it splits on
runs of commas/whitespace and expands each token (`tokenPorts` keeps a
single parsed integer, expands a well-parsed `a-b` into every integer from
`a` to `b` inclusively — the membership law below — and silently drops a
token whose parse fails while the remaining tokens are still processed,
e.g. `"7,abc,9"`). -/
theorem C7_parsePorts :
    parsePorts "" = [] ∧
    (∀ s : String, s ≠ "" →
      (cleanToken s = "any" ∨ cleanToken s = "all" ∨ cleanToken s = "*" ∨
        cleanToken s = "0-65535") →
      parsePorts s = [wildcardPort]) ∧
    (∀ s : String, s ≠ "" →
      ¬(cleanToken s = "any" ∨ cleanToken s = "all" ∨ cleanToken s = "*" ∨
        cleanToken s = "0-65535") →
      parsePorts s = (splitSepRuns (cleanToken s).data).flatMap tokenPorts) ∧
    (∀ a b x : Int, x ∈ rangeInts a b ↔ a ≤ x ∧ x ≤ b) ∧
    parsePorts "22" = [22] ∧
    parsePorts "80,443" = [80, 443] ∧
    parsePorts "1000-1002" = [1000, 1001, 1002] ∧
    parsePorts "any" = [wildcardPort] ∧
    parsePorts "abc" = [] ∧
    parsePorts "7,abc,9" = [7, 9] := by
  refine ⟨by decide, fun s hs hw => ?_, fun s hs hw => ?_, fun a b x => ?_,
    by decide, by decide, by decide, by decide, by decide, by decide⟩
  · simp only [parsePorts]
    rw [if_neg hs, if_pos hw]
  · simp only [parsePorts]
    rw [if_neg hs, if_neg hw]
  · unfold rangeInts
    rw [List.mem_map]
    constructor
    · rintro ⟨i, hi, rfl⟩
      rw [List.mem_range] at hi
      omega
    · intro h
      refine ⟨(x - a).toNat, ?_, ?_⟩
      · rw [List.mem_range]; omega
      · omega

/-- C3: the Excessive Exposure stream of `analyzeRules`, projected to
(rule id, severity, score), is exactly one finding per ALLOW rule with at
least one wildcard dimension, classified by first match over the weighted
count (1 each for any-source/any-destination/any-port, 0.5 for
any-protocol): weight ≥ 3 gives CRITICAL/100, else any-source HIGH/85,
else any-destination HIGH/80, else MEDIUM/60; and no finding otherwise. -/
theorem C3_excessive_exposure (rules : List FirewallRule)
    (ps : List InsecurePortSetting) :
    ((analyzeRules rules ps).findings.filter
      (fun f => f.category = Category.ExcessiveExposure)).map
      (fun f => (f.ruleId, f.severity, f.score)) =
    rules.flatMap (fun r =>
      if r.action = Action.ALLOW ∧
          (getCidrSize r.source = 0 ∨ getCidrSize r.destination = 0 ∨
            r.protocol = Protocol.ANY ∨
            (parsePorts r.destinationPort).contains wildcardPort = true) then
        if (3:ℚ) ≤ (if getCidrSize r.source = 0 then (1:ℚ) else 0) +
            (if getCidrSize r.destination = 0 then (1:ℚ) else 0) +
            (if (parsePorts r.destinationPort).contains wildcardPort = true
              then (1:ℚ) else 0) +
            (if r.protocol = Protocol.ANY then (1/2:ℚ) else 0) then
          [(r.id, Severity.CRITICAL, 100)]
        else if getCidrSize r.source = 0 then [(r.id, Severity.HIGH, 85)]
        else if getCidrSize r.destination = 0 then [(r.id, Severity.HIGH, 80)]
        else [(r.id, Severity.MEDIUM, 60)]
      else []) := by
  rw [analyzeRules_findings, filter_flatMap_eq, map_flatMap_eq]
  refine congrArg rules.flatMap (funext fun r => ?_)
  rw [show ruleScoringFindings ps r = exposureFindings r ++
      subnetScopeFindings r ++ insecurePortFindings ps r from rfl,
    List.filter_append, List.filter_append, subnet_filter_EE,
    insecure_filter_EE, exposure_filter_EE, List.append_nil, List.append_nil,
    exposure_map_obs]

/-- C4: the Subnet Scope stream of `analyzeRules` holds exactly one finding
per ALLOW rule whose source scope `s` satisfies `0 < s ≤ 22` — CRITICAL/80
for `0 < s ≤ 8`, HIGH/80 for `8 < s ≤ 16`, HIGH/60 for `17 ≤ s ≤ 22` — and
none when `s = 0` or `s > 22`; and it can coexist with an Excessive
Exposure finding on the same rule (witnessed by `ruleSlash8`, a /8 ALLOW
rule to destination `any`, which receives both). -/
theorem C4_subnet_scope :
    (∀ (rules : List FirewallRule) (ps : List InsecurePortSetting),
      ((analyzeRules rules ps).findings.filter
        (fun f => f.category = Category.SubnetScope)).map
        (fun f => (f.ruleId, f.severity, f.score)) =
      rules.flatMap (fun r =>
        if r.action = Action.ALLOW ∧ 0 < getCidrSize r.source ∧
            getCidrSize r.source ≤ 22 then
          [(r.id,
            (if getCidrSize r.source ≤ 8 then Severity.CRITICAL
              else Severity.HIGH),
            (if getCidrSize r.source ≤ 16 then 80 else 60))]
        else [])) ∧
    ((analyzeRules [ruleSlash8] []).findings.map
      (fun f => (f.category, f.severity, f.score)) =
      [(Category.ExcessiveExposure, Severity.HIGH, 80),
        (Category.SubnetScope, Severity.CRITICAL, 80)]) := by
  refine ⟨fun rules ps => ?_, by decide⟩
  rw [analyzeRules_findings, filter_flatMap_eq, map_flatMap_eq]
  refine congrArg rules.flatMap (funext fun r => ?_)
  rw [show ruleScoringFindings ps r = exposureFindings r ++
      subnetScopeFindings r ++ insecurePortFindings ps r from rfl,
    List.filter_append, List.filter_append, exposure_filter_SS,
    insecure_filter_SS, subnet_filter_SS, List.nil_append, List.append_nil,
    subnet_map_obs]

/-- C5: the Insecure Port stream of `analyzeRules` holds, for every ALLOW
rule and every non-wildcard port `p` of its parsed destination ports, one
finding exactly when the active policy has an (enabled, exact-port) entry
for `p`, with severity the entry's criticality and score 100/90/60 for
CRITICAL/HIGH/other; `activeInsecurePorts` answers exactly the enabled
entries by exact port number; and concretely port 445 with the enabled SMB
entry yields one HIGH/90 finding while the disabled entry yields none. -/
theorem C5_insecure_port :
    (∀ (rules : List FirewallRule) (ps : List InsecurePortSetting),
      ((analyzeRules rules ps).findings.filter
        (fun f => f.category = Category.InsecurePort)).map
        (fun f => (f.ruleId, f.severity, f.score)) =
      rules.flatMap (fun r =>
        if r.action = Action.ALLOW then
          (parsePorts r.destinationPort).flatMap (fun p =>
            if p = wildcardPort then []
            else
              match activeInsecurePorts ps p with
              | some entry =>
                [(r.id, entry.criticality,
                  (match entry.criticality with
                    | Severity.CRITICAL => 100
                    | Severity.HIGH => 90
                    | _ => 60))]
              | none => [])
        else [])) ∧
    (∀ (ps : List InsecurePortSetting) (p : Int) (s : InsecurePortSetting),
      activeInsecurePorts ps p = some s →
      s ∈ ps ∧ s.enabled = true ∧ s.port = p) ∧
    (∀ (ps : List InsecurePortSetting) (p : Int),
      (activeInsecurePorts ps p).isSome = true ↔
        ∃ s ∈ ps, s.enabled = true ∧ s.port = p) ∧
    ((analyzeRules [ruleAllow445] [smbEnabled]).findings.map
      (fun f => (f.category, f.severity, f.score)) =
      [(Category.InsecurePort, Severity.HIGH, 90)]) ∧
    ((analyzeRules [ruleAllow445] [smbDisabled]).findings = []) := by
  refine ⟨fun rules ps => ?_, fun ps p s h => ?_, fun ps p => ?_,
    by decide, by decide⟩
  · rw [analyzeRules_findings, filter_flatMap_eq, map_flatMap_eq]
    refine congrArg rules.flatMap (funext fun r => ?_)
    rw [show ruleScoringFindings ps r = exposureFindings r ++
        subnetScopeFindings r ++ insecurePortFindings ps r from rfl,
      List.filter_append, List.filter_append, exposure_filter_IP,
      subnet_filter_IP, insecure_filter_IP, List.nil_append, List.nil_append,
      insecure_map_obs]
  · simp only [activeInsecurePorts] at h
    have hp := List.find?_some h
    have hm := List.mem_of_find?_eq_some h
    rw [List.mem_reverse, List.mem_filter] at hm
    exact ⟨hm.1, hm.2, of_decide_eq_true hp⟩
  · simp only [activeInsecurePorts]
    rw [List.find?_isSome]
    constructor
    · rintro ⟨x, hx, hpx⟩
      rw [List.mem_reverse, List.mem_filter] at hx
      exact ⟨x, hx.1, hx.2, of_decide_eq_true hpx⟩
    · rintro ⟨s, hs, hen, hport⟩
      refine ⟨s, ?_, ?_⟩
      · rw [List.mem_reverse, List.mem_filter]; exact ⟨hs, hen⟩
      · simp [hport]

/-- C5 (witness): the `activeInsecurePorts` characterisation applied to the
enabled SMB entry. -/
theorem C5_insecure_port_w :
    smbEnabled ∈ [smbEnabled] ∧ smbEnabled.enabled = true ∧
      smbEnabled.port = 445 :=
  C5_insecure_port.2.1 [smbEnabled] 445 smbEnabled (by decide)

/-- C1 (counterexample): with the conflicting pair `ruleConflictA` (index 0,
ALLOW) and `ruleConflictB` (index 1, DENY) — both enabled, with textually
identical source, destination and destination port — only the later rule B
receives a Correlation Error finding; no such finding names rule A as its
subject, contradicting the claim that each of the two rules receives one. -/
theorem C1_conflict_counterexample :
    (((analyzeRules [ruleConflictA, ruleConflictB] []).hygiene.filter
      (fun f => f.category = Category.CorrelationError)).map
      (fun f => f.ruleId) = ["B"]) ∧
    ¬(∃ f ∈ (analyzeRules [ruleConflictA, ruleConflictB] []).hygiene,
        f.category = Category.CorrelationError ∧ f.ruleId = "A") := by
  decide

/-- C1 (amended): the Correlation Error stream of `analyzeRules` holds, for
each enabled rule, one MEDIUM/score-50 finding naming the first enabled
earlier rule with a different action and textually equal source,
destination and destination port — so of two conflicting rules only the
later one is flagged, naming the earlier — and in a two-rule list whose
destination-port texts differ in any character no Correlation Error finding
is emitted at all. -/
theorem C1_conflict_amended :
    (∀ (rules : List FirewallRule) (ps : List InsecurePortSetting),
      ((analyzeRules rules ps).hygiene.filter
        (fun f => f.category = Category.CorrelationError)).map
        (fun f => (f.ruleId, f.severity, f.score, f.explanation)) =
      rules.enum.flatMap (fun q =>
        if q.2.enabled then
          match (rules.take q.1).find? (conflictPred q.2) with
          | some prev =>
            [(q.2.id, Severity.MEDIUM, 50, conflictExplanation prev.id)]
          | none => []
        else [])) ∧
    (∀ (a b : FirewallRule) (ps : List InsecurePortSetting),
      a.destinationPort ≠ b.destinationPort →
      ((analyzeRules [a, b] ps).hygiene.filter
        (fun f => f.category = Category.CorrelationError)) = []) := by
  have hchar : ∀ (rules : List FirewallRule) (ps : List InsecurePortSetting),
      ((analyzeRules rules ps).hygiene.filter
        (fun f => f.category = Category.CorrelationError)).map
        (fun f => (f.ruleId, f.severity, f.score, f.explanation)) =
      rules.enum.flatMap (fun q =>
        if q.2.enabled then
          match (rules.take q.1).find? (conflictPred q.2) with
          | some prev =>
            [(q.2.id, Severity.MEDIUM, 50, conflictExplanation prev.id)]
          | none => []
        else []) := by
    intro rules ps
    rw [analyzeRules_hygiene, filter_flatMap_eq, map_flatMap_eq]
    exact congrArg _ (funext fun q => hygiene_CE_obs rules q.1 q.2)
  refine ⟨hchar, fun a b ps h => ?_⟩
  rw [← List.map_eq_nil_iff
    (f := fun f : AnalysisFinding =>
      (f.ruleId, f.severity, f.score, f.explanation)), hchar [a, b] ps]
  have hfp : conflictPred b a = false := by
    apply decide_eq_false
    intro hc
    exact h hc.2.2.2.2
  have he : ([a, b] : List FirewallRule).enum = [(0, a), (1, b)] := rfl
  rw [he]
  simp only [List.flatMap_cons, List.flatMap_nil, List.append_nil]
  have h0 : ([a, b] : List FirewallRule).take 0 = [] := rfl
  have h1 : ([a, b] : List FirewallRule).take 1 = [a] := rfl
  rw [List.append_eq_nil]
  constructor
  · rw [h0, List.find?_nil]
    cases a.enabled <;> rfl
  · rw [h1]
    rw [show (List.find? (conflictPred b) [a]) = none by
      rw [List.find?_cons, hfp]; rfl]
    cases b.enabled <;> rfl

/-- C1 (witness): the two-rule suppression clause applied to the pair whose
destination-port texts differ only in a trailing space. -/
theorem C1_conflict_amended_w :
    ((analyzeRules [ruleConflictA, ruleConflictBspace] []).hygiene.filter
      (fun f => f.category = Category.CorrelationError)) = [] :=
  C1_conflict_amended.2 ruleConflictA ruleConflictBspace [] (by decide)

set_option maxRecDepth 4096 in
/-- C6: the shadowing stream of `analyzeRules` (Policy Hygiene,
INFORMATIONAL) holds, for each enabled rule, one score-20 finding naming
the first enabled earlier rule with the same action whose source,
destination, protocol and destination port are each textually identical or
themselves the wildcard token (`any` case-insensitively; protocol `ANY`) —
the unfolded `shadowPred` equivalence below; concretely broad `ruleBroadA`
at index 0 shadows narrow `ruleNarrowB` at index 1, and after swapping the
order the rule now at index 0 receives no shadowing finding. -/
theorem C6_shadowing :
    (∀ (rules : List FirewallRule) (ps : List InsecurePortSetting),
      ((analyzeRules rules ps).hygiene.filter
        (fun f => f.category = Category.PolicyHygiene ∧
          f.severity = Severity.INFORMATIONAL)).map
        (fun f => (f.ruleId, f.score, f.explanation)) =
      rules.enum.flatMap (fun q =>
        if q.2.enabled then
          match (rules.take q.1).find? (shadowPred q.2) with
          | some prev => [(q.2.id, 20, shadowExplanation prev.id)]
          | none => []
        else [])) ∧
    (∀ (r prev : FirewallRule), shadowPred r prev = true ↔
      (prev.enabled = true ∧ prev.action = r.action ∧
        (prev.source = r.source ∨ jsToLower prev.source = "any") ∧
        (prev.destination = r.destination ∨
          jsToLower prev.destination = "any") ∧
        (prev.protocol = r.protocol ∨ prev.protocol = Protocol.ANY) ∧
        (prev.destinationPort = r.destinationPort ∨
          jsToLower prev.destinationPort = "any"))) ∧
    (((analyzeRules [ruleBroadA, ruleNarrowB] []).hygiene.filter
        (fun f => f.category = Category.PolicyHygiene ∧
          f.severity = Severity.INFORMATIONAL)).map
        (fun f => (f.ruleId, f.score, f.explanation)) =
      [("B", 20, shadowExplanation "A")]) ∧
    ((analyzeRules [ruleNarrowB, ruleBroadA] []).hygiene.filter
        (fun f => f.category = Category.PolicyHygiene ∧
          f.severity = Severity.INFORMATIONAL ∧ f.ruleId = "B") = []) := by
  refine ⟨fun rules ps => ?_, fun r prev => ?_, by decide, by decide⟩
  · rw [analyzeRules_hygiene, filter_flatMap_eq, map_flatMap_eq]
    exact congrArg _ (funext fun q => hygiene_shadow_obs rules q.1 q.2)
  · simp [shadowPred, decide_eq_true_eq]

/-- C9: the latent-risk stream of `analyzeRules` (Policy Hygiene, LOW)
holds exactly one score-40 finding for every rule with `enabled = false`,
action ALLOW, and a universal source scope or a wildcard destination port;
concretely the disabled wildcard-port ALLOW rule `ruleDormant` receives
exactly this one hygiene finding, while the identical rule enabled, and a
disabled ALLOW rule with specific source and port, receive none. -/
theorem C9_latent_risk :
    (∀ (rules : List FirewallRule) (ps : List InsecurePortSetting),
      ((analyzeRules rules ps).hygiene.filter
        (fun f => f.category = Category.PolicyHygiene ∧
          f.severity = Severity.LOW)).map
        (fun f => (f.ruleId, f.score)) =
      rules.flatMap (fun r =>
        if r.enabled = false ∧ r.action = Action.ALLOW ∧
            (getCidrSize r.source = 0 ∨
              (parsePorts r.destinationPort).contains wildcardPort = true) then
          [(r.id, 40)]
        else [])) ∧
    ((analyzeRules [ruleDormant] []).hygiene.map
      (fun f => (f.ruleId, f.category, f.severity, f.score)) =
      [("D", Category.PolicyHygiene, Severity.LOW, 40)]) ∧
    ((analyzeRules [ruleDormantOn] []).hygiene = []) ∧
    ((analyzeRules [ruleDormantNarrow] []).hygiene = []) := by
  refine ⟨fun rules ps => ?_, by decide, by decide, by decide⟩
  rw [analyzeRules_hygiene, filter_flatMap_eq, map_flatMap_eq]
  rw [show (fun q : Nat × FirewallRule =>
      ((ruleHygieneFindings rules q.1 q.2).filter
        (fun f => f.category = Category.PolicyHygiene ∧
          f.severity = Severity.LOW)).map (fun f => (f.ruleId, f.score))) =
    (fun q : Nat × FirewallRule =>
      (fun r : FirewallRule =>
        if r.enabled = false ∧ r.action = Action.ALLOW ∧
            (getCidrSize r.source = 0 ∨
              (parsePorts r.destinationPort).contains wildcardPort = true) then
          [(r.id, 40)]
        else []) q.2) from funext fun q => hygiene_latent_obs rules q.1 q.2]
  exact enum_flatMap_snd rules
    (fun r : FirewallRule =>
      if r.enabled = false ∧ r.action = Action.ALLOW ∧
          (getCidrSize r.source = 0 ∨
            (parsePorts r.destinationPort).contains wildcardPort = true) then
        [(r.id, 40)]
      else [])

/-- C8: the summary reports the rule count, the enabled-rule count, the
per-severity counts over the scoring findings only, and the round-half-up
mean of the scoring findings' scores (0 when there are none); concretely
scoring findings 100/80/60 at CRITICAL/HIGH/MEDIUM give counts 1/1/1 and
average 80, and a run whose only output is a MEDIUM/50 hygiene finding
reports zero severity counts and average 0 — hygiene stays out of the
headline metrics. -/
theorem C8_summary :
    (∀ (rules : List FirewallRule) (ps : List InsecurePortSetting),
      (analyzeRules rules ps).summary.totalRules = rules.length ∧
      (analyzeRules rules ps).summary.enabledRules =
        rules.countP (fun r => r.enabled) ∧
      (analyzeRules rules ps).summary.criticalFindings =
        ((analyzeRules rules ps).findings.filter
          (fun f => f.severity = Severity.CRITICAL)).length ∧
      (analyzeRules rules ps).summary.highFindings =
        ((analyzeRules rules ps).findings.filter
          (fun f => f.severity = Severity.HIGH)).length ∧
      (analyzeRules rules ps).summary.mediumFindings =
        ((analyzeRules rules ps).findings.filter
          (fun f => f.severity = Severity.MEDIUM)).length ∧
      (analyzeRules rules ps).summary.lowFindings =
        ((analyzeRules rules ps).findings.filter
          (fun f => f.severity = Severity.LOW)).length ∧
      ((analyzeRules rules ps).findings.length = 0 →
        (analyzeRules rules ps).summary.averageRiskScore = 0) ∧
      ((analyzeRules rules ps).findings.length ≠ 0 →
        ((analyzeRules rules ps).summary.averageRiskScore : ℤ) =
          round (((((analyzeRules rules ps).findings.map
            (fun f => f.score)).sum : ℕ) : ℚ) /
            ((analyzeRules rules ps).findings.length : ℚ)))) ∧
    ((analyzeRules [ruleCrit, ruleHighDest, ruleMedProto] []).findings.map
      (fun f => (f.severity, f.score)) =
      [(Severity.CRITICAL, 100), (Severity.HIGH, 80),
        (Severity.MEDIUM, 60)]) ∧
    ((analyzeRules [ruleCrit, ruleHighDest, ruleMedProto] []).summary =
      ⟨3, 3, 1, 1, 1, 0, 80⟩) ∧
    ((analyzeRules [ruleConflictA, ruleConflictB] []).findings = []) ∧
    ((analyzeRules [ruleConflictA, ruleConflictB] []).hygiene.map
      (fun f => (f.severity, f.score)) = [(Severity.MEDIUM, 50)]) ∧
    ((analyzeRules [ruleConflictA, ruleConflictB] []).summary =
      ⟨2, 2, 0, 0, 0, 0, 0⟩) := by
  refine ⟨fun rules ps => ?_, by decide, by decide, by decide, by decide,
    by decide⟩
  have havg : (analyzeRules rules ps).summary.averageRiskScore =
      (if 0 < (analyzeRules rules ps).findings.length then
        jsRound (((analyzeRules rules ps).findings.map
          (fun f => f.score)).sum) ((analyzeRules rules ps).findings.length)
      else 0) := rfl
  refine ⟨rfl, (List.countP_eq_length_filter _ _).symm, rfl, rfl, rfl, rfl,
    fun h => ?_, fun h => ?_⟩
  · rw [havg, h]
    rfl
  · rw [havg, if_pos (Nat.pos_of_ne_zero h)]
    exact jsRound_eq_round _ _ (Nat.pos_of_ne_zero h)

/-- C8 (witness): the mean clause applied to the 100/80/60 example. -/
theorem C8_summary_w :
    ((analyzeRules [ruleCrit, ruleHighDest, ruleMedProto]
      []).summary.averageRiskScore : ℤ) =
    round (((((analyzeRules [ruleCrit, ruleHighDest, ruleMedProto]
      []).findings.map (fun f => f.score)).sum : ℕ) : ℚ) /
      ((analyzeRules [ruleCrit, ruleHighDest, ruleMedProto]
        []).findings.length : ℚ)) :=
  (C8_summary.1 [ruleCrit, ruleHighDest, ruleMedProto] []).2.2.2.2.2.2.2
    (by decide)

/-- C10: the scoring findings of `analyzeRules` never read a rule's
`enabled` flag — flipping the enabled flags of arbitrary rules (same port
policy) leaves the findings list and every findings-derived summary field
(total rules, per-severity counts, average risk score) unchanged; only the
hygiene list and the enabled-rule count can differ. -/
theorem C10_enabled_independence (ps : List InsecurePortSetting)
    (rules : List FirewallRule) (flip : Nat → Bool) :
    (analyzeRules (rules.enum.map
      (fun q => { q.2 with enabled := flip q.1 })) ps).findings =
      (analyzeRules rules ps).findings ∧
    (analyzeRules (rules.enum.map
      (fun q => { q.2 with enabled := flip q.1 })) ps).summary.totalRules =
      (analyzeRules rules ps).summary.totalRules ∧
    (analyzeRules (rules.enum.map
      (fun q => { q.2 with enabled := flip q.1 }))
        ps).summary.criticalFindings =
      (analyzeRules rules ps).summary.criticalFindings ∧
    (analyzeRules (rules.enum.map
      (fun q => { q.2 with enabled := flip q.1 })) ps).summary.highFindings =
      (analyzeRules rules ps).summary.highFindings ∧
    (analyzeRules (rules.enum.map
      (fun q => { q.2 with enabled := flip q.1 }))
        ps).summary.mediumFindings =
      (analyzeRules rules ps).summary.mediumFindings ∧
    (analyzeRules (rules.enum.map
      (fun q => { q.2 with enabled := flip q.1 })) ps).summary.lowFindings =
      (analyzeRules rules ps).summary.lowFindings ∧
    (analyzeRules (rules.enum.map
      (fun q => { q.2 with enabled := flip q.1 }))
        ps).summary.averageRiskScore =
      (analyzeRules rules ps).summary.averageRiskScore := by
  have hF : (analyzeRules (rules.enum.map
      (fun q => { q.2 with enabled := flip q.1 })) ps).findings =
      (analyzeRules rules ps).findings := by
    rw [analyzeRules_findings, analyzeRules_findings, flatMap_map_eq]
    rw [show (fun q : Nat × FirewallRule =>
        ruleScoringFindings ps { q.2 with enabled := flip q.1 }) =
      (fun q : Nat × FirewallRule => ruleScoringFindings ps q.2) from
      funext fun q => rfl]
    exact enum_flatMap_snd rules (ruleScoringFindings ps)
  refine ⟨hF, ?_, ?_, ?_, ?_, ?_, ?_⟩
  · have hlen : (rules.enum.map
        (fun q => { q.2 with enabled := flip q.1 })).length = rules.length := by
      rw [List.length_map, List.enum_length]
    exact hlen
  · exact congrArg (fun l : List AnalysisFinding =>
      (l.filter (fun f => f.severity = Severity.CRITICAL)).length) hF
  · exact congrArg (fun l : List AnalysisFinding =>
      (l.filter (fun f => f.severity = Severity.HIGH)).length) hF
  · exact congrArg (fun l : List AnalysisFinding =>
      (l.filter (fun f => f.severity = Severity.MEDIUM)).length) hF
  · exact congrArg (fun l : List AnalysisFinding =>
      (l.filter (fun f => f.severity = Severity.LOW)).length) hF
  · exact congrArg (fun l : List AnalysisFinding =>
      if 0 < l.length then jsRound ((l.map (fun f => f.score)).sum) l.length
      else 0) hF

/-- C7 (witness): the characterisation applied at `" ALL "` and at a
concrete range membership. -/
theorem C7_parsePorts_w :
    parsePorts " ALL " = [wildcardPort] ∧ (5 ∈ rangeInts 3 7 ↔ 3 ≤ (5:Int) ∧ (5:Int) ≤ 7) :=
  ⟨C7_parsePorts.2.1 " ALL " (by decide) (by decide), C7_parsePorts.2.2.2.1 3 7 5⟩

end RuleGuardX
